import Mathlib

/-!
Verification development for the ASDcare repository.

Shallow embedding of:
* the `predict-video` edge function
  (`supabase/functions/predict-video/index.ts`), modelled as a pure
  function of the parsed request body, the optional configured endpoint
  (`PYTHON_ML_ENDPOINT`), the downstream network behaviour (a function
  from the outbound call to its outcome) and the captured timestamp;
  the pair returned records the response together with the list of
  outbound calls actually issued;
* the video-upload flow and step gating of
  `src/components/Questionnaire.tsx` (`handleVideoUpload`, `canProceed`);
* the persistence row built by `saveAssessment`
  (`useAssessmentHistory`) and the displayed final score of
  `src/components/ResultModal.tsx`;
* the score-fusion function of the specification (its implementation,
  `src/utils/scoring.ts`, is not among the provided sources).

JavaScript numbers are modelled as rationals, JSON absence as `Option`,
and JavaScript falsiness of a number as equality with `0` (the only
falsy numeric value besides `NaN`, which has no rational counterpart).
-/

namespace ASDcare

/-- `charsPrefix n h` holds when the character list `n` is a prefix of `h`;
building block for the JavaScript `String.prototype.includes` model. -/
def charsPrefix : List Char → List Char → Bool
  | [], _ => true
  | _ :: _, [] => false
  | a :: as, b :: bs => a == b && charsPrefix as bs

/-- `charsInfix n h` holds when the character list `n` occurs contiguously
inside `h`. -/
def charsInfix (needle : List Char) : List Char → Bool
  | [] => charsPrefix needle []
  | b :: bs => charsPrefix needle (b :: bs) || charsInfix needle bs

/-- Model of JavaScript `haystack.includes(needle)` as used by the catch
block of the edge function. -/
def strIncludes (haystack needle : String) : Bool :=
  charsInfix needle.data haystack.data

/-- Upstream JSON payload as read by the edge function
(`interface PredictionResponse`, index.ts lines 13-23, parsed at line 84).
`prediction_score = none` models a missing or non-numeric field (the code
checks `typeof prediction.prediction_score !== 'number'`); the other two
fields are `none` when absent from the payload. -/
structure UpstreamPayload where
  prediction_score : Option ℚ
  confidence : Option ℚ
  features_detected : Option (List (String × ℚ))
deriving Repr, DecidableEq

/-- One outbound `fetch` issued by the edge function (index.ts lines 69-76):
the target URL, the HTTP method, the `video_url` field of the JSON body,
and the `AbortSignal.timeout` deadline in milliseconds. -/
structure OutboundCall where
  url : String
  method : String
  video_url : String
  timeoutMs : Nat
deriving Repr, DecidableEq

/-- Outcome of the downstream `fetch`: an HTTP-success response whose JSON
body parsed into a payload, a non-success HTTP response with its status
and body text, or a thrown error (network failure or abort) carrying the
runtime error message. -/
inductive FetchOutcome where
  | success (payload : UpstreamPayload)
  | httpError (status : Nat) (bodyText : String)
  | thrown (message : String)

/-- JSON body of the edge function response, one constructor per shape the
code can serialize (index.ts lines 37-43, 55-64, 94-107, 115-127). -/
inductive ResponseBody where
  | missingUrl (error : String)
  | notConfigured (error instructions : String)
  | success (prediction_score confidence : ℚ)
      (features_detected : List (String × ℚ)) (timestamp : String)
  | failure (error etype suggestion : String)
deriving Repr, DecidableEq

/-- HTTP response of the edge function: status code plus JSON body. -/
structure HandlerResponse where
  status : Nat
  body : ResponseBody
deriving Repr, DecidableEq

/-- The catch block of the edge function (index.ts lines 109-128): the
caught error message is classified as a timeout exactly when it contains
the substring "timeout" or "aborted", yielding 504/`timeout`; every other
error yields 500/`processing_error`. -/
def catchResponse (errorMessage : String) : HandlerResponse :=
  let isTimeout := strIncludes errorMessage "timeout" || strIncludes errorMessage "aborted"
  { status := if isTimeout then 504 else 500
    body := .failure errorMessage
      (if isTimeout then "timeout" else "processing_error")
      (if isTimeout then "Video processing timed out. Try with a shorter video (< 2 minutes)"
       else "Error processing video. Please try again or contact support.") }

/-- `prediction.confidence || 0.75` (index.ts line 97): JavaScript `||`
substitutes the default when the value is absent or falsy, and `0` is the
falsy rational. -/
def confOrDefault : Option ℚ → ℚ
  | none => 3/4
  | some c => if c = 0 then 3/4 else c

/-- `prediction.features_detected || {}` (index.ts line 98): an absent
mapping becomes the empty mapping; a present (even empty) object is truthy
and kept. -/
def featuresOrDefault : Option (List (String × ℚ)) → List (String × ℚ)
  | none => []
  | some fs => fs

/-- The message built at index.ts line 81 when the downstream HTTP status
is not ok. -/
def upstreamErrorMessage (status : Nat) (bodyText : String) : String :=
  "ML service returned " ++ toString status ++ ": " ++ bodyText

/-- The `predict-video` handler (index.ts lines 33-128) for a parsed POST
body, as a function of the `videoUrl` field, the configured endpoint, the
network behaviour and the captured timestamp.  Returns the response
together with the list of outbound calls issued. -/
def predictVideo (videoUrl : String) (endpoint : Option String)
    (net : OutboundCall → FetchOutcome) (now : String) :
    HandlerResponse × List OutboundCall :=
  if videoUrl = "" then
    ({ status := 400, body := .missingUrl "videoUrl is required" }, [])
  else
    match endpoint with
    | none =>
        ({ status := 503
           body := .notConfigured
             "ML service not configured. Please deploy Python backend service."
             "See python-ml-service/README.md for deployment instructions" }, [])
    | some ep =>
        let call : OutboundCall :=
          { url := ep, method := "POST", video_url := videoUrl, timeoutMs := 120000 }
        match net call with
        | .thrown msg => (catchResponse msg, [call])
        | .httpError st bodyText =>
            (catchResponse (upstreamErrorMessage st bodyText), [call])
        | .success payload =>
            match payload.prediction_score with
            | none =>
                (catchResponse "Invalid prediction score received from ML service", [call])
            | some ps =>
                if ps < 0 ∨ 100 < ps then
                  (catchResponse "Invalid prediction score received from ML service", [call])
                else
                  ({ status := 200
                     body := .success ps (confOrDefault payload.confidence)
                       (featuresOrDefault payload.features_detected) now }, [call])

/-- A prediction as held by the frontend after a successful call to the
edge function (the 200 body). -/
structure PredData where
  prediction_score : ℚ
  confidence : ℚ
  features_detected : List (String × ℚ)
deriving Repr, DecidableEq

/-- The slice of the questionnaire `metadata` state touched by the video
upload flow (Questionnaire.tsx lines 49-58): the uploaded video URL
(initially the empty string) and the prediction (initially null). -/
structure QMeta where
  videoUrl : String
  videoPrediction : Option PredData
deriving Repr, DecidableEq

/-- Outcome of the storage upload (Questionnaire.tsx lines 104-117). -/
inductive UploadOutcome where
  | failed (message : String)
  | uploaded (publicUrl : String)

/-- Outcome of `supabase.functions.invoke('predict-video')`
(Questionnaire.tsx lines 128-150): an error result, a resolved data value
(possibly null), or a thrown exception. -/
inductive InvokeOutcome where
  | invokeError (message : String)
  | invokeData (data : Option PredData)
  | invokeThrown (message : String)

/-- `handleVideoUpload` (Questionnaire.tsx lines 76-154) as a state
transformer on the metadata slice: oversized files and missing sessions
leave the state unchanged; a failed upload leaves it unchanged; a
successful upload stores the public URL, then a successful prediction
stores the prediction while an error result, a null data value or a
thrown exception leaves `videoPrediction` as it was. -/
def handleVideoUpload (m : QMeta) (fileSize : Nat) (loggedIn : Bool)
    (upload : UploadOutcome) (invoke : InvokeOutcome) : QMeta :=
  if 20 * 1024 * 1024 < fileSize then m
  else if !loggedIn then m
  else
    match upload with
    | .failed _ => m
    | .uploaded publicUrl =>
        let m1 : QMeta := { m with videoUrl := publicUrl }
        match invoke with
        | .invokeError _ => m1
        | .invokeThrown _ => m1
        | .invokeData none => m1
        | .invokeData (some d) => { m1 with videoPrediction := some d }

/-- Assessment roles (Questionnaire.tsx props). -/
inductive Role where
  | individual
  | parent
  | clinician
deriving Repr, DecidableEq

/-- `videoStep` (Questionnaire.tsx line 69). -/
def videoStep : Role → Nat
  | .individual => 0
  | _ => 1

/-- `firstQuestionStep` (Questionnaire.tsx line 70). -/
def firstQuestionStep : Role → Nat
  | .individual => 1
  | _ => 2

/-- Parent metadata fields consulted by `canProceed`. -/
structure ParentMeta where
  childName : String
  childAge : String
deriving Repr, DecidableEq

/-- Clinician metadata fields consulted by `canProceed`. -/
structure ClinMeta where
  childName : String
  childAge : String
  pronoun : String
  homeLanguage : String
  problemsFaced : String
deriving Repr, DecidableEq

/-- `canProceed` (Questionnaire.tsx lines 194-214): step 0 is gated on the
video URL (individual) or on the metadata fields (parent/clinician); the
video step of parent/clinician is gated on the video URL; question steps
are gated on the current question having an answer; everything else
proceeds.  String truthiness is non-emptiness. -/
def canProceed (role : Role) (currentStep : Nat) (m : QMeta)
    (pm : ParentMeta) (cm : ClinMeta)
    (currentQuestion : Option String) (answers : String → Option String) : Bool :=
  if currentStep = 0 then
    match role with
    | .individual => !(m.videoUrl = "")
    | .parent => !(pm.childName = "") && !(pm.childAge = "")
    | .clinician =>
        !(cm.childName = "") && !(cm.childAge = "") && !(cm.pronoun = "") &&
        !(cm.homeLanguage = "") && !(cm.problemsFaced = "")
  else if currentStep = videoStep role && !(role = .individual) then
    !(m.videoUrl = "")
  else if firstQuestionStep role ≤ currentStep then
    match currentQuestion with
    | some q => (answers q).isSome
    | none => true
  else true

/-- The `ScoringResult` fields consulted by `saveAssessment` and
`ResultModal`. -/
structure ScoringResult where
  normalizedScore : ℚ
  videoPrediction : Option PredData
  fusedScore : Option ℚ
  severity : String
deriving Repr, DecidableEq

/-- The columns of the `assessment_history` row built by `saveAssessment`. -/
structure AssessmentInsert where
  role : String
  questionnaire_score : ℚ
  ml_score : Option ℚ
  fused_score : ℚ
  severity : String
  video_url : Option String
deriving Repr, DecidableEq

/-- The row built by `saveAssessment` (`useAssessmentHistory`, insert at
lines 561-570 of the hook): `ml_score` is
`result.videoPrediction?.prediction_score || null`, so an absent
prediction or a falsy (zero) score persists as null; `fused_score` is
`result.fusedScore || result.normalizedScore`, so an absent or zero fused
score falls back to the questionnaire score; `video_url` is
`videoUrl || null`. -/
def assessmentInsert (result : ScoringResult) (role : String)
    (videoUrl : Option String) : AssessmentInsert :=
  { role := role
    questionnaire_score := result.normalizedScore
    ml_score :=
      match result.videoPrediction with
      | none => none
      | some p => if p.prediction_score = 0 then none else some p.prediction_score
    fused_score :=
      match result.fusedScore with
      | none => result.normalizedScore
      | some f => if f = 0 then result.normalizedScore else f
    severity := result.severity
    video_url :=
      match videoUrl with
      | none => none
      | some u => if u = "" then none else some u }

/-- `finalScore` displayed by `ResultModal`
(`const finalScore = result.fusedScore || result.normalizedScore`,
ResultModal.tsx line 32): a zero fused score is falsy and falls back to
the questionnaire score. -/
def finalScore (result : ScoringResult) : ℚ :=
  match result.fusedScore with
  | none => result.normalizedScore
  | some f => if f = 0 then result.normalizedScore else f

/-- A video prediction as input to score fusion (spec §3): score in
[0,100] and confidence in [0,1]. -/
structure VideoPredictionSpec where
  predictionScore : ℚ
  confidence : ℚ
deriving Repr, DecidableEq

/-- Result of score fusion: the questionnaire score used as input and the
fused score, present exactly when a prediction was supplied. -/
structure FusionResult where
  normalizedScore : ℚ
  fusedScore : Option ℤ
deriving Repr, DecidableEq

/-- Modelled from the spec: the score-fusion function `fuse` of spec §4.1
is implemented in `src/utils/scoring.ts`, which is not among the provided
source files (only its callers are).  Per the spec, when a prediction is
present `fusedScore = round(0.6*normalizedScore + 0.4*predictionScore)`,
and confidence is surfaced for display only — it does not enter the
formula; when the prediction is absent the fused score is absent. -/
def fuse (normalizedScore : ℚ) (prediction : Option VideoPredictionSpec) : FusionResult :=
  match prediction with
  | none => { normalizedScore := normalizedScore, fusedScore := none }
  | some p =>
      { normalizedScore := normalizedScore
        fusedScore := some (round (6/10 * normalizedScore + 4/10 * p.predictionScore)) }

end ASDcare

namespace ASDcare

theorem charsPrefix_append (l t : List Char) : charsPrefix l (l ++ t) = true := by
  induction l with
  | nil => rfl
  | cons a as ih => simp [charsPrefix, ih]

theorem charsInfix_of_prefix (n h : List Char) (hp : charsPrefix n h = true) :
    charsInfix n h = true := by
  cases h with
  | nil => simpa [charsInfix] using hp
  | cons b bs => simp [charsInfix, hp]

theorem charsInfix_append (pre n suf : List Char) :
    charsInfix n (pre ++ (n ++ suf)) = true := by
  induction pre with
  | nil => exact charsInfix_of_prefix _ _ (charsPrefix_append n suf)
  | cons b bs ih => simp [charsInfix, ih]

theorem upstreamErrorMessage_includes_status (st : Nat) (bodyText : String) :
    strIncludes (upstreamErrorMessage st bodyText) (toString st) = true := by
  have hd : (upstreamErrorMessage st bodyText).data
      = "ML service returned ".data ++ ((toString st).data ++ (": ".data ++ bodyText.data)) := by
    simp [upstreamErrorMessage, String.data_append]
  unfold strIncludes
  rw [hd]
  exact charsInfix_append _ _ _

theorem upstreamErrorMessage_includes_body (st : Nat) (bodyText : String) :
    strIncludes (upstreamErrorMessage st bodyText) bodyText = true := by
  have hd : (upstreamErrorMessage st bodyText).data
      = ("ML service returned ".data ++ ((toString st).data ++ ": ".data))
          ++ (bodyText.data ++ []) := by
    simp [upstreamErrorMessage, String.data_append]
  unfold strIncludes
  rw [hd]
  exact charsInfix_append _ _ _

/-- C1: for every normalizedScore in [0,100] and every present prediction
with predictionScore in [0,100] and confidence in [0,1], `fuse` returns
`fusedScore = round(0.6*normalizedScore + 0.4*predictionScore)`; the
confidence value has no effect on the result; and normalizedScore 80 with
predictionScore 20 yields fusedScore 56. -/
theorem C1_fuse_weighted_round (ns ps c c' : ℚ)
    (hns : 0 ≤ ns ∧ ns ≤ 100) (hps : 0 ≤ ps ∧ ps ≤ 100)
    (hc : 0 ≤ c ∧ c ≤ 1) (hc' : 0 ≤ c' ∧ c' ≤ 1) :
    (fuse ns (some { predictionScore := ps, confidence := c })).fusedScore
        = some (round (6/10 * ns + 4/10 * ps))
      ∧ fuse ns (some { predictionScore := ps, confidence := c })
        = fuse ns (some { predictionScore := ps, confidence := c' })
      ∧ (fuse 80 (some { predictionScore := 20, confidence := c })).fusedScore = some 56 := by
  refine ⟨rfl, rfl, ?_⟩
  simp [fuse]
  norm_num [round_eq]

theorem C1_fuse_weighted_round_witness :
    (fuse 80 (some { predictionScore := 20, confidence := 1/2 })).fusedScore
      = some (round ((6:ℚ)/10 * 80 + 4/10 * 20))
    ∧ (fuse 80 (some { predictionScore := 20, confidence := 1/2 })).fusedScore = some 56 := by
  have h := C1_fuse_weighted_round 80 20 (1/2) 1
      (by norm_num) (by norm_num) (by norm_num) (by norm_num)
  exact ⟨h.1, h.2.2⟩

/-- C2: for every request with a non-empty videoUrl, when no downstream
endpoint is configured the handler returns status 503 with a body carrying
`error` and `instructions` fields, and issues no outbound call. -/
theorem C2_service_not_configured (videoUrl : String)
    (net : OutboundCall → FetchOutcome) (now : String)
    (h : videoUrl ≠ "") :
    predictVideo videoUrl none net now =
      ({ status := 503
         body := .notConfigured
           "ML service not configured. Please deploy Python backend service."
           "See python-ml-service/README.md for deployment instructions" }, []) := by
  simp [predictVideo, h]

theorem C2_service_not_configured_witness :
    predictVideo "https://v.mp4/demo" none (fun _ => .thrown "unreachable") "2026-01-01" =
      ({ status := 503
         body := .notConfigured
           "ML service not configured. Please deploy Python backend service."
           "See python-ml-service/README.md for deployment instructions" }, []) :=
  C2_service_not_configured "https://v.mp4/demo" (fun _ => .thrown "unreachable") "2026-01-01"
    (by decide)

/-- C3: for every downstream HTTP-success response whose prediction_score
is missing/non-numeric or lies outside [0,100], the handler fails (500,
`processing_error`, the invalid-score message) instead of returning a
success response; scores exactly 0 and exactly 100 are accepted with a
200 response. -/
theorem C3_invalid_upstream_score (ep videoUrl now : String)
    (net : OutboundCall → FetchOutcome) (payload : UpstreamPayload)
    (hurl : videoUrl ≠ "")
    (hnet : net { url := ep, method := "POST", video_url := videoUrl, timeoutMs := 120000 }
              = .success payload) :
    ((payload.prediction_score = none ∨
        ∃ ps, payload.prediction_score = some ps ∧ (ps < 0 ∨ 100 < ps)) →
      (predictVideo videoUrl (some ep) net now).fst =
        { status := 500
          body := .failure "Invalid prediction score received from ML service"
            "processing_error" "Error processing video. Please try again or contact support." })
    ∧ (∀ ps, payload.prediction_score = some ps → 0 ≤ ps → ps ≤ 100 →
        (predictVideo videoUrl (some ep) net now).fst.status = 200) := by
  constructor
  · rintro (hps | ⟨ps, hps, hrange⟩)
    · simp [predictVideo, hurl, hnet, hps]
      decide
    · simp [predictVideo, hurl, hnet, hps, if_pos hrange]
      decide
  · intro ps hps h0 h1
    have hcond : ¬(ps < 0 ∨ 100 < ps) := by push_neg; exact ⟨h0, h1⟩
    simp [predictVideo, hurl, hnet, hps, if_neg hcond]

theorem C3_invalid_upstream_score_witness :
    (predictVideo "https://v.mp4" (some "https://ml/predict")
        (fun _ => .success { prediction_score := some 150, confidence := none,
                             features_detected := none }) "t3").fst
      = { status := 500
          body := .failure "Invalid prediction score received from ML service"
            "processing_error" "Error processing video. Please try again or contact support." } := by
  have h := C3_invalid_upstream_score "https://ml/predict" "https://v.mp4" "t3"
      (fun _ => .success { prediction_score := some 150, confidence := none,
                           features_detected := none })
      { prediction_score := some 150, confidence := none, features_detected := none }
      (by decide) rfl
  exact h.1 (Or.inr ⟨150, rfl, Or.inr (by norm_num)⟩)

/-- C4 counterexample: a downstream 500 response whose body text contains
the word "timeout" is returned as 504 with type "timeout", not as a 500
response with type "processing_error" as the claim states for every
non-success downstream status. -/
theorem C4_counterexample :
    (predictVideo "https://c.mp4" (some "https://mlc/predict")
        (fun _ => .httpError 500 "connection timeout") "tc").fst
      = { status := 504
          body := .failure "ML service returned 500: connection timeout" "timeout"
            "Video processing timed out. Try with a shorter video (< 2 minutes)" } := by
  decide

/-- C4 (amended): for every downstream response with a non-success HTTP
status, the handler builds the error message
"ML service returned {status}: {body}", which contains the upstream status
code and the upstream body text; exactly one outbound call is made (no
retry); and whenever that message contains neither "timeout" nor "aborted"
it is returned to the caller as a 500 response with type
"processing_error" — in particular a downstream 500 with body
"model crashed" yields an error containing status 500 and that body text. -/
theorem C4_upstream_error_surfaced (ep videoUrl now : String)
    (net : OutboundCall → FetchOutcome) (st : Nat) (bodyText : String)
    (hurl : videoUrl ≠ "")
    (hnet : net { url := ep, method := "POST", video_url := videoUrl, timeoutMs := 120000 }
              = .httpError st bodyText)
    (hto : strIncludes (upstreamErrorMessage st bodyText) "timeout" = false)
    (hab : strIncludes (upstreamErrorMessage st bodyText) "aborted" = false) :
    predictVideo videoUrl (some ep) net now =
      ({ status := 500
         body := .failure (upstreamErrorMessage st bodyText) "processing_error"
           "Error processing video. Please try again or contact support." },
       [{ url := ep, method := "POST", video_url := videoUrl, timeoutMs := 120000 }])
    ∧ strIncludes (upstreamErrorMessage st bodyText) (toString st) = true
    ∧ strIncludes (upstreamErrorMessage st bodyText) bodyText = true := by
  refine ⟨?_, upstreamErrorMessage_includes_status st bodyText,
    upstreamErrorMessage_includes_body st bodyText⟩
  simp [predictVideo, hurl, hnet, catchResponse, hto, hab]

theorem C4_upstream_error_surfaced_witness :
    predictVideo "https://v4.mp4" (some "https://ml4b/predict")
        (fun _ => .httpError 500 "model crashed") "t4" =
      ({ status := 500
         body := .failure "ML service returned 500: model crashed" "processing_error"
           "Error processing video. Please try again or contact support." },
       [{ url := "https://ml4b/predict", method := "POST", video_url := "https://v4.mp4",
          timeoutMs := 120000 }])
    ∧ strIncludes "ML service returned 500: model crashed" "500" = true
    ∧ strIncludes "ML service returned 500: model crashed" "model crashed" = true := by
  have h := C4_upstream_error_surfaced "https://ml4b/predict" "https://v4.mp4" "t4"
      (fun _ => .httpError 500 "model crashed") 500 "model crashed"
      (by decide) rfl (by decide) (by decide)
  exact ⟨h.1, h.2.1, h.2.2⟩

/-- C5: when an endpoint is configured and the videoUrl is non-empty, the
handler issues exactly one POST to that endpoint carrying the
`video_url` field with the 120000 ms `AbortSignal.timeout` deadline; and
when the deadline abort makes the fetch throw (an error whose message
contains "timeout" or "aborted"), the handler returns status 504 with a
body whose type field is "timeout". -/
theorem C5_single_post_with_deadline (ep videoUrl now msg : String)
    (net : OutboundCall → FetchOutcome)
    (hurl : videoUrl ≠ "") :
    (predictVideo videoUrl (some ep) net now).snd =
        [{ url := ep, method := "POST", video_url := videoUrl, timeoutMs := 120000 }]
    ∧ (net { url := ep, method := "POST", video_url := videoUrl, timeoutMs := 120000 }
          = .thrown msg →
       (strIncludes msg "timeout" || strIncludes msg "aborted") = true →
       (predictVideo videoUrl (some ep) net now).fst =
         { status := 504
           body := .failure msg "timeout"
             "Video processing timed out. Try with a shorter video (< 2 minutes)" }) := by
  constructor
  · cases hnc : net { url := ep, method := "POST", video_url := videoUrl, timeoutMs := 120000 } with
    | success payload =>
        cases hps : payload.prediction_score with
        | none => simp [predictVideo, hurl, hnc, hps]
        | some ps =>
            by_cases h : ps < 0 ∨ 100 < ps <;> simp [predictVideo, hurl, hnc, hps, h]
    | httpError st b => simp [predictVideo, hurl, hnc]
    | thrown m => simp [predictVideo, hurl, hnc]
  · intro hnet htime
    simp [predictVideo, hurl, hnet, catchResponse, htime]

theorem C5_single_post_with_deadline_witness :
    (predictVideo "https://w.mp4" (some "https://ml2/predict")
        (fun _ => .thrown "The signal has been aborted") "t5").snd
      = [{ url := "https://ml2/predict", method := "POST", video_url := "https://w.mp4",
           timeoutMs := 120000 }]
    ∧ (predictVideo "https://w.mp4" (some "https://ml2/predict")
        (fun _ => .thrown "The signal has been aborted") "t5").fst
      = { status := 504
          body := .failure "The signal has been aborted" "timeout"
            "Video processing timed out. Try with a shorter video (< 2 minutes)" } := by
  have h := C5_single_post_with_deadline "https://ml2/predict" "https://w.mp4" "t5"
      "The signal has been aborted"
      (fun _ => .thrown "The signal has been aborted") (by decide)
  exact ⟨h.1, h.2 rfl (by decide)⟩

/-- C6: for every downstream success response with a valid
prediction_score, the handler returns a 200 response containing the score,
the normalized confidence, the normalized features and the captured
timestamp; an omitted confidence becomes 0.75 and omitted
features_detected becomes the empty mapping, neither being an error. -/
theorem C6_success_normalization (ep videoUrl now : String)
    (net : OutboundCall → FetchOutcome) (payload : UpstreamPayload) (ps : ℚ)
    (hurl : videoUrl ≠ "")
    (hnet : net { url := ep, method := "POST", video_url := videoUrl, timeoutMs := 120000 }
              = .success payload)
    (hps : payload.prediction_score = some ps) (h0 : 0 ≤ ps) (h1 : ps ≤ 100) :
    (predictVideo videoUrl (some ep) net now).fst =
      { status := 200
        body := .success ps (confOrDefault payload.confidence)
          (featuresOrDefault payload.features_detected) now }
    ∧ (payload.confidence = none → confOrDefault payload.confidence = 3/4)
    ∧ (payload.features_detected = none → featuresOrDefault payload.features_detected = []) := by
  have hcond : ¬(ps < 0 ∨ 100 < ps) := by push_neg; exact ⟨h0, h1⟩
  refine ⟨by simp [predictVideo, hurl, hnet, hps, if_neg hcond], ?_, ?_⟩
  · intro h; simp [confOrDefault, h]
  · intro h; simp [featuresOrDefault, h]

theorem C6_success_normalization_witness :
    (predictVideo "https://x.mp4" (some "https://ml3/predict")
        (fun _ => .success { prediction_score := some (226/5), confidence := none,
                             features_detected := none }) "t6").fst
      = { status := 200, body := .success (226/5) (3/4) [] "t6" } := by
  have h := C6_success_normalization "https://ml3/predict" "https://x.mp4" "t6"
      (fun _ => .success { prediction_score := some (226/5), confidence := none,
                           features_detected := none })
      { prediction_score := some (226/5), confidence := none, features_detected := none }
      (226/5) (by decide) rfl rfl (by norm_num) (by norm_num)
  simpa [confOrDefault, featuresOrDefault] using h.1

/-- C7: when the upload succeeds but the prediction call fails (error
result, thrown exception, or null data), the stored videoPrediction stays
null, the uploaded videoUrl is retained, the video step still lets the
user proceed, and `canProceed` never depends on the prediction at any
step — a prediction failure never blocks the assessment. -/
theorem C7_prediction_failure_nonblocking (m : QMeta) (fileSize : Nat)
    (publicUrl : String) (invoke : InvokeOutcome)
    (role : Role) (pm : ParentMeta) (cm : ClinMeta) (cq : Option String)
    (answers : String → Option String)
    (hm : m.videoPrediction = none)
    (hsize : fileSize ≤ 20 * 1024 * 1024)
    (hurl : publicUrl ≠ "")
    (hfail : (∃ e, invoke = .invokeError e) ∨ (∃ e, invoke = .invokeThrown e)
              ∨ invoke = .invokeData none) :
    (handleVideoUpload m fileSize true (.uploaded publicUrl) invoke).videoPrediction = none
    ∧ (handleVideoUpload m fileSize true (.uploaded publicUrl) invoke).videoUrl = publicUrl
    ∧ canProceed role (videoStep role)
        (handleVideoUpload m fileSize true (.uploaded publicUrl) invoke) pm cm cq answers = true
    ∧ ∀ (step : Nat) (q : Option String) (ans : String → Option String)
        (pred pred' : Option PredData),
        canProceed role step { videoUrl := publicUrl, videoPrediction := pred } pm cm q ans
          = canProceed role step { videoUrl := publicUrl, videoPrediction := pred' } pm cm q ans := by
  have hstate : handleVideoUpload m fileSize true (.uploaded publicUrl) invoke
      = { m with videoUrl := publicUrl } := by
    rcases hfail with ⟨e, rfl⟩ | ⟨e, rfl⟩ | rfl <;>
      simp [handleVideoUpload, not_lt.mpr hsize]
  refine ⟨by rw [hstate]; exact hm, by rw [hstate], ?_, ?_⟩
  · rw [hstate]
    cases role <;> simp [canProceed, videoStep, hurl]
  · intro step q ans pred pred'
    rfl

theorem C7_prediction_failure_nonblocking_witness :
    (handleVideoUpload { videoUrl := "", videoPrediction := none } 1024 true
        (.uploaded "https://u.mp4") (.invokeError "boom")).videoPrediction = none
    ∧ (handleVideoUpload { videoUrl := "", videoPrediction := none } 1024 true
        (.uploaded "https://u.mp4") (.invokeError "boom")).videoUrl = "https://u.mp4"
    ∧ canProceed .parent 1
        (handleVideoUpload { videoUrl := "", videoPrediction := none } 1024 true
          (.uploaded "https://u.mp4") (.invokeError "boom"))
        { childName := "A", childAge := "5" }
        { childName := "A", childAge := "5", pronoun := "they", homeLanguage := "en",
          problemsFaced := "none" }
        none (fun _ => none) = true := by
  have h := C7_prediction_failure_nonblocking { videoUrl := "", videoPrediction := none }
      1024 "https://u.mp4" (.invokeError "boom") .parent
      { childName := "A", childAge := "5" }
      { childName := "A", childAge := "5", pronoun := "they", homeLanguage := "en",
        problemsFaced := "none" }
      none (fun _ => none)
      rfl (by norm_num) (by decide) (Or.inl ⟨"boom", rfl⟩)
  exact ⟨h.1, h.2.1, h.2.2.1⟩

/-- C8: for every upstream success payload whose confidence field is
exactly 0, the handler returns confidence 0.75 rather than 0 — the `||`
default tests falsiness, not absence, so the returned confidence is never
0. -/
theorem C8_zero_confidence_replaced (ep videoUrl now : String)
    (net : OutboundCall → FetchOutcome) (payload : UpstreamPayload) (ps : ℚ)
    (hurl : videoUrl ≠ "")
    (hnet : net { url := ep, method := "POST", video_url := videoUrl, timeoutMs := 120000 }
              = .success payload)
    (hps : payload.prediction_score = some ps) (h0 : 0 ≤ ps) (h1 : ps ≤ 100)
    (hconf : payload.confidence = some 0) :
    (predictVideo videoUrl (some ep) net now).fst =
      { status := 200
        body := .success ps (3/4) (featuresOrDefault payload.features_detected) now }
    ∧ (∀ c : Option ℚ, confOrDefault c ≠ 0) := by
  have hcond : ¬(ps < 0 ∨ 100 < ps) := by push_neg; exact ⟨h0, h1⟩
  constructor
  · simp [predictVideo, hurl, hnet, hps, if_neg hcond, confOrDefault, hconf]
  · rintro (_ | c)
    · simp [confOrDefault]
    · by_cases hc : c = 0 <;> simp [confOrDefault, hc]

theorem C8_zero_confidence_replaced_witness :
    (predictVideo "https://z.mp4" (some "https://ml5/predict")
        (fun _ => .success { prediction_score := some 60, confidence := some 0,
                             features_detected := some [] }) "t8").fst
      = { status := 200, body := .success 60 (3/4) [] "t8" } := by
  have h := C8_zero_confidence_replaced "https://ml5/predict" "https://z.mp4" "t8"
      (fun _ => .success { prediction_score := some 60, confidence := some 0,
                           features_detected := some [] })
      { prediction_score := some 60, confidence := some 0, features_detected := some [] }
      60 (by decide) rfl rfl (by norm_num) (by norm_num) rfl
  simpa [featuresOrDefault] using h.1

/-- C9: two independent universals — every assessment whose video
prediction has prediction_score exactly 0 persists ml_score as null, and
every result whose fusedScore is exactly 0 has both its persisted
fused_score and its displayed final score fall back to the questionnaire
score — a zero ML score is indistinguishable from an absent video
analysis at the persistence and display boundaries. -/
theorem C9_zero_scores_collapse (r : ScoringResult) (roleStr : String)
    (v : Option String) :
    (∀ p, r.videoPrediction = some p → p.prediction_score = 0 →
        (assessmentInsert r roleStr v).ml_score = none)
    ∧ (r.fusedScore = some 0 →
        (assessmentInsert r roleStr v).fused_score = r.normalizedScore
        ∧ finalScore r = r.normalizedScore) := by
  constructor
  · intro p hp h0
    simp [assessmentInsert, hp, h0]
  · intro hf
    exact ⟨by simp [assessmentInsert, hf], by simp [finalScore, hf]⟩

theorem C9_zero_scores_collapse_witness :
    (assessmentInsert
        { normalizedScore := 70
          videoPrediction := some { prediction_score := 0, confidence := 1/2,
                                    features_detected := [] }
          fusedScore := some 42
          severity := "moderate" } "parent" (some "https://v9.mp4")).ml_score = none
    ∧ (assessmentInsert
        { normalizedScore := 70
          videoPrediction := some { prediction_score := 1, confidence := 1/2,
                                    features_detected := [] }
          fusedScore := some 0
          severity := "low" } "individual" none).fused_score = 70
    ∧ finalScore
        { normalizedScore := 70
          videoPrediction := some { prediction_score := 1, confidence := 1/2,
                                    features_detected := [] }
          fusedScore := some 0
          severity := "low" } = 70 := by
  have h1 := C9_zero_scores_collapse
      { normalizedScore := 70
        videoPrediction := some { prediction_score := 0, confidence := 1/2,
                                  features_detected := [] }
        fusedScore := some 42
        severity := "moderate" }
      "parent" (some "https://v9.mp4")
  have h2 := C9_zero_scores_collapse
      { normalizedScore := 70
        videoPrediction := some { prediction_score := 1, confidence := 1/2,
                                  features_detected := [] }
        fusedScore := some 0
        severity := "low" }
      "individual" none
  have h2f := h2.2 rfl
  exact ⟨h1.1 { prediction_score := 0, confidence := 1/2, features_detected := [] } rfl rfl,
    h2f.1, h2f.2⟩

/-- C10: the error classification of the catch block depends only on
whether the caught message contains the substring "timeout" or "aborted";
consequently an upstream 500 whose body text contains the word "timeout"
is returned as 504 with type "timeout" instead of 500 with type
"processing_error". -/
theorem C10_substring_classification (msg : String) :
    (catchResponse msg).status
        = (if (strIncludes msg "timeout" || strIncludes msg "aborted") = true then 504 else 500)
    ∧ (predictVideo "https://y.mp4" (some "https://ml4/predict")
          (fun _ => .httpError 500 "request timeout while reading body") "t1").fst
        = { status := 504
            body := .failure "ML service returned 500: request timeout while reading body" "timeout"
              "Video processing timed out. Try with a shorter video (< 2 minutes)" } := by
  constructor
  · rfl
  · decide

end ASDcare
